import Mathlib

/-!
# Vulkan bootstrap sequence (`application.hpp` / `application.cpp`)

A shallow embedding of the `application` class: its constructor
(`init_window`, `init_vulkan`), the device-selection logic and its destructor.

* Vulkan / GLFW handles are natural numbers, `VK_NULL_HANDLE` is `0`.
* The windowing system and the graphics driver are external collaborators.
  Their answers are collected in the record `Driver`; every call made into
  them is appended to a call log (`World.calls`), so that statements about
  the order and the absence of calls can be made.
* A `throw runtime_error(msg)` is the result `Except.error msg`; the world in
  which the exception was raised is returned next to it.
* `std::set` is a strictly ascending list (`set_insert`, `set_erase`).
* Queue-family indices are natural numbers.  The driver reports the family
  count as a `uint32_t` and real devices report a handful of families, so the
  `int` counter of `find_queue_families` never wraps.
* Constant structure tags (`sType`), the allocator argument (always `nullptr`),
  the empty `VkPhysicalDeviceFeatures` and the `float` queue priority `1.0f`
  carry no decision and are left out of the create-info records.
-/

namespace VulkanTest

/-! ## Constants of the Vulkan headers -/

/-- Vulkan and GLFW object handles. -/
abbrev Handle := Nat

/-- The null handle of `vulkan_core.h`. -/
def VK_NULL_HANDLE : Handle := 0

/-- Value of `VK_QUEUE_GRAPHICS_BIT` in `vulkan_core.h`. -/
def VK_QUEUE_GRAPHICS_BIT : Nat := 1

/-- Value of the header constant `VK_KHR_SWAPCHAIN_EXTENSION_NAME`. -/
def VK_KHR_SWAPCHAIN_EXTENSION_NAME : String := "VK_KHR_swapchain"

/-- Value of the header constant `VK_EXT_DEBUG_UTILS_EXTENSION_NAME`. -/
def VK_EXT_DEBUG_UTILS_EXTENSION_NAME : String := "VK_EXT_debug_utils"

/-- Value of `GLFW_CLIENT_API`. -/
def GLFW_CLIENT_API : Nat := 0x00022001

/-- Value of `GLFW_NO_API`. -/
def GLFW_NO_API : Nat := 0

/-- Value of `GLFW_RESIZABLE`. -/
def GLFW_RESIZABLE : Nat := 0x00020003

/-- Value of `GLFW_FALSE`. -/
def GLFW_FALSE : Nat := 0

/-! ## Records passed to the driver -/

/-- The part of `VkQueueFamilyProperties` the program reads. -/
structure VkQueueFamilyProperties where
  queueFlags : Nat
deriving DecidableEq, Repr

/-- Fields of `VkInstanceCreateInfo` set by `create_vulkan_instance`;
`pNext_debug_messenger` tells whether a debug-messenger create-info is chained. -/
structure VkInstanceCreateInfo where
  ppEnabledExtensionNames : List String
  ppEnabledLayerNames : List String
  pNext_debug_messenger : Bool
deriving DecidableEq, Repr

/-- Fields of `VkDeviceQueueCreateInfo` set by `create_logical_device`. -/
structure VkDeviceQueueCreateInfo where
  queueFamilyIndex : Nat
  queueCount : Nat
deriving DecidableEq, Repr

/-- Fields of `VkDeviceCreateInfo` set by `create_logical_device`. -/
structure VkDeviceCreateInfo where
  pQueueCreateInfos : List VkDeviceQueueCreateInfo
  ppEnabledExtensionNames : List String
  ppEnabledLayerNames : List String
deriving DecidableEq, Repr

/-! ## Calls into the collaborators -/

/-- One call into GLFW or the Vulkan driver, with the arguments that identify
it.  For the two-step enumeration calls the flag `fetch` is `false` for the
count query (null output array) and `true` for the call that fills the array.
`pfn_vkCreateDebugUtilsMessengerEXT` / `pfn_vkDestroyDebugUtilsMessengerEXT`
are calls through the function pointer resolved by `vkGetInstanceProcAddr`. -/
inductive Call where
  | glfwInit
  | glfwWindowHint (hint value : Nat)
  | glfwCreateWindow (width height : Nat) (title : String)
  | glfwGetRequiredInstanceExtensions
  | vkEnumerateInstanceLayerProperties (fetch : Bool)
  | vkCreateInstance (create_info : VkInstanceCreateInfo)
  | vkGetInstanceProcAddr (inst : Handle) (name : String)
  | pfn_vkCreateDebugUtilsMessengerEXT (inst : Handle)
  | pfn_vkDestroyDebugUtilsMessengerEXT (inst messenger : Handle)
  | glfwCreateWindowSurface (inst window : Handle)
  | vkEnumeratePhysicalDevices (inst : Handle) (fetch : Bool)
  | vkGetPhysicalDeviceQueueFamilyProperties (device : Handle) (fetch : Bool)
  | vkGetPhysicalDeviceSurfaceSupportKHR (device : Handle) (family : Nat) (surface : Handle)
  | vkEnumerateDeviceExtensionProperties (device : Handle) (fetch : Bool)
  | vkGetPhysicalDeviceSurfaceCapabilitiesKHR (device surface : Handle)
  | vkGetPhysicalDeviceSurfaceFormatsKHR (device surface : Handle) (fetch : Bool)
  | vkGetPhysicalDeviceSurfacePresentModesKHR (device surface : Handle) (fetch : Bool)
  | vkCreateDevice (physical_device : Handle) (create_info : VkDeviceCreateInfo)
  | vkGetDeviceQueue (device : Handle) (family index : Nat)
  | vkDestroyDevice (device : Handle)
  | vkDestroySurfaceKHR (inst surface : Handle)
  | vkDestroyInstance (inst : Handle)
  | glfwDestroyWindow (window : Handle)
  | glfwTerminate
deriving DecidableEq, Repr

/-- The answers of the windowing system and of the graphics driver.  A creation
function answers `some h` for `VK_SUCCESS` with the new handle `h` and `none`
for every other result code.  Each answer is a function of the arguments, so a
query repeated with the same arguments gets the same answer. -/
structure Driver where
  glfwCreateWindow : Nat → Nat → String → Handle
  glfwGetRequiredInstanceExtensions : List String
  instance_layers : List String
  vkCreateInstance : VkInstanceCreateInfo → Option Handle
  vkGetInstanceProcAddr : Handle → String → Bool
  pfn_vkCreateDebugUtilsMessengerEXT : Handle → Option Handle
  glfwCreateWindowSurface : Handle → Handle → Option Handle
  physical_devices : Handle → List Handle
  queue_families : Handle → List VkQueueFamilyProperties
  surface_support : Handle → Nat → Handle → Bool
  device_extensions : Handle → List String
  surface_formats : Handle → Handle → List Nat
  present_modes : Handle → Handle → List Nat
  vkCreateDevice : Handle → VkDeviceCreateInfo → Option Handle
  vkGetDeviceQueue : Handle → Nat → Nat → Handle

/-! ## The `application` object -/

/-- The handle fields of `class application` (`instance_` is the member `instance`). -/
structure application where
  window : Handle
  instance_ : Handle
  debug_messenger : Handle
  physical_device : Handle
  device : Handle
  graphics_queue : Handle
  surface : Handle
  present_queue : Handle
deriving DecidableEq, Repr

/-- Member `width`. -/
def width : Nat := 800

/-- Member `height`. -/
def height : Nat := 450

/-- Member `title`. -/
def title : String := "Vulkan Test"

/-- Static member `validation_layers`. -/
def validation_layers : List String := ["VK_LAYER_KHRONOS_validation"]

/-- Static member `device_extensions`. -/
def device_extensions : List String := [VK_KHR_SWAPCHAIN_EXTENSION_NAME]

/-- The exceptions the program can raise: `std::runtime_error` with its message,
and `std::bad_optional_access` (thrown by `std::optional::value` on an empty
optional). -/
inductive Error where
  | runtime_error (what : String)
  | bad_optional_access
deriving DecidableEq, Repr

/-- The object together with the log of the calls made so far. -/
structure World where
  self : application
  calls : List Call
deriving DecidableEq, Repr

/-- Record a call at the end of the log. -/
def World.call (w : World) (c : Call) : World :=
  { w with calls := w.calls ++ [c] }

/-- Nested struct `queue_family_indices`. -/
structure queue_family_indices where
  graphics_family : Option Nat
  present_family : Option Nat
deriving DecidableEq, Repr

/-- Method `queue_family_indices::is_complete`. -/
def queue_family_indices.is_complete (indices : queue_family_indices) : Bool :=
  indices.graphics_family.isSome && indices.present_family.isSome

/-- Nested struct `swapchain_support_details` (the capabilities are never read). -/
structure swapchain_support_details where
  formats : List Nat
  present_modes : List Nat
deriving DecidableEq, Repr

/-! ## `std::set` as an ascending list -/

/-- Insertion into a `std::set`: the key goes to its place in the ascending
order, a key already present is not inserted again. -/
def set_insert {α : Type} [LT α] [DecidableRel (α := α) (· < ·)] [DecidableEq α]
    (x : α) : List α → List α
  | [] => [x]
  | y :: ys =>
    if x < y then x :: y :: ys
    else if x = y then y :: ys
    else y :: set_insert x ys

/-- Range / initializer-list constructor of `std::set`: insert the elements one
after the other into the empty set. -/
def set_of_list {α : Type} [LT α] [DecidableRel (α := α) (· < ·)] [DecidableEq α]
    (xs : List α) : List α :=
  xs.foldl (fun s x => set_insert x s) []

/-- Method `std::set::erase(key)`. -/
def set_erase {α : Type} [DecidableEq α] (x : α) (s : List α) : List α :=
  s.filter (fun y => !decide (y = x))

/-! ## Queue families -/

/-- Body of the range-for loop of `find_queue_families`, with the counter `i`. -/
def find_queue_families_loop (d : Driver) (device : Handle) :
    List VkQueueFamilyProperties → Nat → queue_family_indices → World →
      queue_family_indices × World
  | [], _, indices, w => (indices, w)
  | queue_family :: rest, i, indices, w =>
    let indices :=
      if queue_family.queueFlags &&& VK_QUEUE_GRAPHICS_BIT ≠ 0 then
        { indices with graphics_family := some i }
      else indices
    let w := w.call (.vkGetPhysicalDeviceSurfaceSupportKHR device i w.self.surface)
    let present_support := d.surface_support device i w.self.surface
    let indices :=
      if present_support then { indices with present_family := some i } else indices
    find_queue_families_loop d device rest (i + 1) indices w

/-- Method `application::find_queue_families`. -/
def find_queue_families (d : Driver) (device : Handle) (w : World) :
    queue_family_indices × World :=
  let indices : queue_family_indices := { graphics_family := none, present_family := none }
  let w := w.call (.vkGetPhysicalDeviceQueueFamilyProperties device false)
  let queue_families := d.queue_families device
  let w := w.call (.vkGetPhysicalDeviceQueueFamilyProperties device true)
  find_queue_families_loop d device queue_families 0 indices w

/-! ## Instance creation -/

/-- Method `application::vulkan_validation_layers_supported`: every requested
layer name must compare equal (`strcmp`) to the name of an enumerated layer. -/
def vulkan_validation_layers_supported (d : Driver) (w : World) : Bool × World :=
  let w := w.call (.vkEnumerateInstanceLayerProperties false)
  let available_layers := d.instance_layers
  let w := w.call (.vkEnumerateInstanceLayerProperties true)
  (validation_layers.all fun name => available_layers.any fun layerName => name == layerName, w)

/-- Method `application::required_vulkan_extensions`. -/
def required_vulkan_extensions (validation_layers_enabled : Bool) (d : Driver) (w : World) :
    List String × World :=
  let w := w.call .glfwGetRequiredInstanceExtensions
  let extensions := d.glfwGetRequiredInstanceExtensions
  let extensions :=
    if validation_layers_enabled then extensions ++ [VK_EXT_DEBUG_UTILS_EXTENSION_NAME]
    else extensions
  (extensions, w)

/-- The part of `application::create_vulkan_instance` after the layer check. -/
def create_vulkan_instance_body (validation_layers_enabled : Bool) (d : Driver) (w : World) :
    Except Error Unit × World :=
  let (extensions, w) := required_vulkan_extensions validation_layers_enabled d w
  let create_info : VkInstanceCreateInfo :=
    if validation_layers_enabled then
      { ppEnabledExtensionNames := extensions
        ppEnabledLayerNames := validation_layers
        pNext_debug_messenger := true }
    else
      { ppEnabledExtensionNames := extensions
        ppEnabledLayerNames := []
        pNext_debug_messenger := false }
  let w := w.call (.vkCreateInstance create_info)
  match d.vkCreateInstance create_info with
  | some h => (.ok (), { w with self := { w.self with instance_ := h } })
  | none => (.error (.runtime_error "Failed to create Vulkan instance!"), w)

/-- Method `application::create_vulkan_instance`.  The layer check is evaluated
only when validation is enabled (`&&` short-circuits). -/
def create_vulkan_instance (validation_layers_enabled : Bool) (d : Driver) (w : World) :
    Except Error Unit × World :=
  if validation_layers_enabled then
    let (supported, w) := vulkan_validation_layers_supported d w
    if !supported then
      (.error (.runtime_error "Requested Vulkan validation layers are not supported!"), w)
    else create_vulkan_instance_body validation_layers_enabled d w
  else create_vulkan_instance_body validation_layers_enabled d w

/-! ## Debug messenger -/

/-- Free function `vkCreateDebugUtilsMessengerEXT` of `application.cpp`: the
extension function is looked up by name; `none` stands for every result other
than `VK_SUCCESS`, in particular `VK_ERROR_EXTENSION_NOT_PRESENT`. -/
def vkCreateDebugUtilsMessengerEXT (d : Driver) (inst : Handle) (w : World) :
    Option Handle × World :=
  let w := w.call (.vkGetInstanceProcAddr inst "vkCreateDebugUtilsMessengerEXT")
  if d.vkGetInstanceProcAddr inst "vkCreateDebugUtilsMessengerEXT" then
    (d.pfn_vkCreateDebugUtilsMessengerEXT inst, w.call (.pfn_vkCreateDebugUtilsMessengerEXT inst))
  else (none, w)

/-- Free function `vkDestroyDebugUtilsMessengerEXT` of `application.cpp`. -/
def vkDestroyDebugUtilsMessengerEXT (d : Driver) (inst debugMessenger : Handle) (w : World) :
    World :=
  let w := w.call (.vkGetInstanceProcAddr inst "vkDestroyDebugUtilsMessengerEXT")
  if d.vkGetInstanceProcAddr inst "vkDestroyDebugUtilsMessengerEXT" then
    w.call (.pfn_vkDestroyDebugUtilsMessengerEXT inst debugMessenger)
  else w

/-- Method `application::setup_debug_messenger`. -/
def setup_debug_messenger (validation_layers_enabled : Bool) (d : Driver) (w : World) :
    Except Error Unit × World :=
  if !validation_layers_enabled then (.ok (), w)
  else
    let (result, w) := vkCreateDebugUtilsMessengerEXT d w.self.instance_ w
    match result with
    | some h => (.ok (), { w with self := { w.self with debug_messenger := h } })
    | none => (.error (.runtime_error "Failed to set up Vulkan debug messenger!"), w)

/-- Method `application::create_surface`. -/
def create_surface (d : Driver) (w : World) : Except Error Unit × World :=
  let w1 := w.call (.glfwCreateWindowSurface w.self.instance_ w.self.window)
  match d.glfwCreateWindowSurface w.self.instance_ w.self.window with
  | some h => (.ok (), { w1 with self := { w1.self with surface := h } })
  | none => (.error (.runtime_error "Failed to create window surface!"), w1)

/-! ## Device suitability -/

/-- Method `application::device_extensions_supported`: the required names are
put into a `std::set`, every available name is erased from it, and the set
must be empty at the end. -/
def device_extensions_supported (d : Driver) (device : Handle) (w : World) : Bool × World :=
  let w := w.call (.vkEnumerateDeviceExtensionProperties device false)
  let available_extensions := d.device_extensions device
  let w := w.call (.vkEnumerateDeviceExtensionProperties device true)
  let required_extensions := set_of_list device_extensions
  let required_extensions :=
    available_extensions.foldl (fun s extensionName => set_erase extensionName s)
      required_extensions
  (required_extensions.isEmpty, w)

/-- Method `application::query_swapchain_support`: a list is fetched only when
its count is not zero. -/
def query_swapchain_support (d : Driver) (device : Handle) (w : World) :
    swapchain_support_details × World :=
  let surface := w.self.surface
  let w := w.call (.vkGetPhysicalDeviceSurfaceCapabilitiesKHR device surface)
  let w := w.call (.vkGetPhysicalDeviceSurfaceFormatsKHR device surface false)
  let format_count := (d.surface_formats device surface).length
  let (formats, w) :=
    if format_count ≠ 0 then
      (d.surface_formats device surface,
        w.call (.vkGetPhysicalDeviceSurfaceFormatsKHR device surface true))
    else ([], w)
  let w := w.call (.vkGetPhysicalDeviceSurfacePresentModesKHR device surface false)
  let present_mode_count := (d.present_modes device surface).length
  let (present_modes, w) :=
    if present_mode_count ≠ 0 then
      (d.present_modes device surface,
        w.call (.vkGetPhysicalDeviceSurfacePresentModesKHR device surface true))
    else ([], w)
  ({ formats := formats, present_modes := present_modes }, w)

/-- Method `application::is_device_suitable`. -/
def is_device_suitable (d : Driver) (device : Handle) (w : World) : Bool × World :=
  let (indices, w) := find_queue_families d device w
  let (extensions_supported, w) := device_extensions_supported d device w
  let (swapchain_adequate, w) :=
    if extensions_supported then
      let (swapchain_support, w) := query_swapchain_support d device w
      (!swapchain_support.formats.isEmpty && !swapchain_support.present_modes.isEmpty, w)
    else (false, w)
  (indices.is_complete && extensions_supported && swapchain_adequate, w)

/-- The range-for loop of `pick_physical_device`: the first suitable device is
stored in `physical_device` and the loop is left. -/
def pick_physical_device_loop (d : Driver) : List Handle → World → World
  | [], w => w
  | device :: rest, w =>
    let (suitable, w) := is_device_suitable d device w
    if suitable then { w with self := { w.self with physical_device := device } }
    else pick_physical_device_loop d rest w

/-- Method `application::pick_physical_device`. -/
def pick_physical_device (d : Driver) (w : World) : Except Error Unit × World :=
  let inst := w.self.instance_
  let w := w.call (.vkEnumeratePhysicalDevices inst false)
  let device_count := (d.physical_devices inst).length
  if device_count = 0 then (.error (.runtime_error "Failed to find GPUs with Vulkan support!"), w)
  else
    let devices := d.physical_devices inst
    let w := w.call (.vkEnumeratePhysicalDevices inst true)
    let w := pick_physical_device_loop d devices w
    if w.self.physical_device = VK_NULL_HANDLE then
      (.error (.runtime_error "Failed to find a suitable GPU!"), w)
    else (.ok (), w)

/-! ## Logical device -/

/-- The queue-create entries built by `create_logical_device`: the two family
indices go into a `std::set<uint32_t>`, and one entry with `queueCount = 1` is
pushed for every element of the set, in the iteration order of the set. -/
def queue_create_infos (graphics_family present_family : Nat) : List VkDeviceQueueCreateInfo :=
  let unique_queue_families := set_of_list [graphics_family, present_family]
  unique_queue_families.map fun queue_family =>
    { queueFamilyIndex := queue_family, queueCount := 1 }

/-- Method `application::create_logical_device`.  `std::optional::value` raises
`bad_optional_access` on an empty optional. -/
def create_logical_device (validation_layers_enabled : Bool) (d : Driver) (w : World) :
    Except Error Unit × World :=
  let (indices, w) := find_queue_families d w.self.physical_device w
  match indices.graphics_family with
  | none => (.error .bad_optional_access, w)
  | some graphics_family =>
    match indices.present_family with
    | none => (.error .bad_optional_access, w)
    | some present_family =>
      let create_info : VkDeviceCreateInfo :=
        { pQueueCreateInfos := queue_create_infos graphics_family present_family
          ppEnabledExtensionNames := device_extensions
          ppEnabledLayerNames := if validation_layers_enabled then validation_layers else [] }
      let w := w.call (.vkCreateDevice w.self.physical_device create_info)
      match d.vkCreateDevice w.self.physical_device create_info with
      | none => (.error (.runtime_error "Vulkan Error: Failed to create logical device!"), w)
      | some device =>
        let w := { w with self := { w.self with device := device } }
        let w := w.call (.vkGetDeviceQueue device graphics_family 0)
        let w := { w with self :=
          { w.self with graphics_queue := d.vkGetDeviceQueue device graphics_family 0 } }
        let w := w.call (.vkGetDeviceQueue device present_family 0)
        let w := { w with self :=
          { w.self with present_queue := d.vkGetDeviceQueue device present_family 0 } }
        (.ok (), w)

/-! ## Constructor and destructor -/

/-- Sequencing of two steps: an exception raised by the first step skips the
second one. -/
def and_then (r : Except Error Unit × World) (next : World → Except Error Unit × World) :
    Except Error Unit × World :=
  match r with
  | (.ok (), w) => next w
  | (.error e, w) => (.error e, w)

/-- Method `application::init_window`. -/
def init_window (d : Driver) (w : World) : World :=
  let w := w.call .glfwInit
  let w := w.call (.glfwWindowHint GLFW_CLIENT_API GLFW_NO_API)
  let w := w.call (.glfwWindowHint GLFW_RESIZABLE GLFW_FALSE)
  let w := w.call (.glfwCreateWindow width height title)
  { w with self := { w.self with window := d.glfwCreateWindow width height title } }

/-- Method `application::init_vulkan`. -/
def init_vulkan (validation_layers_enabled : Bool) (d : Driver) (w : World) :
    Except Error Unit × World :=
  and_then (create_vulkan_instance validation_layers_enabled d w) fun w =>
  and_then (setup_debug_messenger validation_layers_enabled d w) fun w =>
  and_then (create_surface d w) fun w =>
  and_then (pick_physical_device d w) fun w =>
  create_logical_device validation_layers_enabled d w

/-- Constructor `application::application`. -/
def application_constructor (validation_layers_enabled : Bool) (d : Driver) (w : World) :
    Except Error Unit × World :=
  init_vulkan validation_layers_enabled d (init_window d w)

/-- Destructor `application::~application`. -/
def application_destructor (validation_layers_enabled : Bool) (d : Driver) (w : World) : World :=
  let w := w.call (.vkDestroyDevice w.self.device)
  let w :=
    if validation_layers_enabled then
      vkDestroyDebugUtilsMessengerEXT d w.self.instance_ w.self.debug_messenger w
    else w
  let w := w.call (.vkDestroySurfaceKHR w.self.instance_ w.self.surface)
  let w := w.call (.vkDestroyInstance w.self.instance_)
  let w := w.call (.glfwDestroyWindow w.self.window)
  w.call .glfwTerminate

/-- The object before the constructor body runs: `physical_device` has the
default member initialiser `VK_NULL_HANDLE`; the other handle members are not
initialised and are taken from `garbage`.  No call has been made. -/
def fresh (garbage : application) : World :=
  { self := { garbage with physical_device := VK_NULL_HANDLE }, calls := [] }

/-! ## Vocabulary of the statements -/

/-- The resources owned by the application. -/
inductive Resource where
  | windowing_subsystem
  | window
  | vulkan_instance
  | debug_messenger
  | surface
  | logical_device
deriving DecidableEq, Repr

/-- The resource a call acquires, if the call is an acquisition. -/
def Call.acquires : Call → Option Resource
  | .glfwInit => some .windowing_subsystem
  | .glfwCreateWindow _ _ _ => some .window
  | .vkCreateInstance _ => some .vulkan_instance
  | .pfn_vkCreateDebugUtilsMessengerEXT _ => some .debug_messenger
  | .glfwCreateWindowSurface _ _ => some .surface
  | .vkCreateDevice _ _ => some .logical_device
  | _ => none

/-- The resource a call releases, if the call is a release. -/
def Call.releases : Call → Option Resource
  | .vkDestroyDevice _ => some .logical_device
  | .pfn_vkDestroyDebugUtilsMessengerEXT _ _ => some .debug_messenger
  | .vkDestroySurfaceKHR _ _ => some .surface
  | .vkDestroyInstance _ => some .vulkan_instance
  | .glfwDestroyWindow _ => some .window
  | .glfwTerminate => some .windowing_subsystem
  | _ => none

/-! ## Concrete objects and mock drivers -/

/-- An object whose uninitialised handle members hold arbitrary values. -/
def garbage_object : application :=
  { window := 11, instance_ := 12, debug_messenger := 13, physical_device := 14,
    device := 15, graphics_queue := 16, surface := 17, present_queue := 18 }

/-- A mock driver on which every creation succeeds: one GPU (handle `1`) with a
single queue family offering graphics and presentation, the swapchain
extension, one surface format and one present mode; the validation layer is
installed and the debug-utils functions resolve. -/
def mock_driver : Driver :=
  { glfwCreateWindow := fun _ _ _ => 100
    glfwGetRequiredInstanceExtensions := ["VK_KHR_surface", "VK_KHR_xcb_surface"]
    instance_layers := ["VK_LAYER_KHRONOS_validation"]
    vkCreateInstance := fun _ => some 200
    vkGetInstanceProcAddr := fun _ _ => true
    pfn_vkCreateDebugUtilsMessengerEXT := fun _ => some 300
    glfwCreateWindowSurface := fun _ _ => some 400
    physical_devices := fun _ => [1]
    queue_families := fun _ => [{ queueFlags := 7 }]
    surface_support := fun _ _ _ => true
    device_extensions := fun _ => ["VK_KHR_maintenance1", "VK_KHR_swapchain"]
    surface_formats := fun _ _ => [44]
    present_modes := fun _ _ => [2]
    vkCreateDevice := fun _ _ => some 500
    vkGetDeviceQueue := fun _ family _ => 600 + family }

/-- As `mock_driver`, but the GPU has two queue families, both offering
graphics and presentation. -/
def two_family_driver : Driver :=
  { mock_driver with queue_families := fun _ => [{ queueFlags := 7 }, { queueFlags := 1 }] }

/-- A mock driver reporting two GPUs: the first (handle `1`) lacks the swapchain
extension, the second (handle `2`) meets every criterion. -/
def two_gpu_driver : Driver :=
  { mock_driver with
    physical_devices := fun _ => [1, 2]
    device_extensions := fun device =>
      if device = 1 then ["VK_KHR_maintenance1"] else ["VK_KHR_swapchain"] }

/-- A mock driver reporting no GPU at all. -/
def no_gpu_driver : Driver :=
  { mock_driver with physical_devices := fun _ => [] }

/-- Whether a queue family offers graphics capability, as tested in the loop of
`find_queue_families`. -/
def has_graphics (q : VkQueueFamilyProperties) : Bool :=
  decide (q.queueFlags &&& VK_QUEUE_GRAPHICS_BIT ≠ 0)

/-- Scan a list with a running index and remember the last index whose element
satisfies `p`; `acc` is the value remembered so far. -/
def scan_last {α : Type} (p : Nat → α → Bool) : List α → Nat → Option Nat → Option Nat
  | [], _, acc => acc
  | x :: xs, i, acc => scan_last p xs (i + 1) (if p i x then some i else acc)

/-- The requirement of the specification for the device extensions: the
available extension list is a superset of the fixed required set. -/
def spec_extensions_superset (available_extensions : List String) : Bool :=
  device_extensions.all fun required => available_extensions.contains required

/-- The resources acquired by a sequence of calls, in order. -/
def acquisitions (calls : List Call) : List Resource :=
  calls.filterMap Call.acquires

/-- The resources released by a sequence of calls, in order. -/
def releases (calls : List Call) : List Resource :=
  calls.filterMap Call.releases

/-- Whether a call is a release call. -/
def is_release (c : Call) : Bool :=
  c.releases.isSome

/-- The calls a step added to the log of `before`. -/
def calls_since (before after : World) : List Call :=
  after.calls.drop before.calls.length

/-! # Theorems

## The last index satisfying a predicate -/

theorem scan_last_eq_some {α : Type} (p : Nat → α → Bool) (xs : List α) :
    ∀ (i : Nat) (acc : Option Nat) (k : Nat),
      scan_last p xs i acc = some k ↔
        (∃ j q, xs[j]? = some q ∧ k = i + j ∧ p (i + j) q = true ∧
            ∀ j2 q2, j < j2 → xs[j2]? = some q2 → p (i + j2) q2 = false) ∨
          (acc = some k ∧ ∀ j q, xs[j]? = some q → p (i + j) q = false) := by
  induction xs with
  | nil => intro i acc k; simp [scan_last]
  | cons x xs ih =>
    intro i acc k
    rw [scan_last, ih]
    constructor
    · rintro (⟨j, q, hq, hk, hp, hlast⟩ | ⟨hacc, hnone⟩)
      · left
        refine ⟨j + 1, q, by simpa using hq, by omega, ?_, ?_⟩
        · have : i + (j + 1) = i + 1 + j := by omega
          rw [this]; exact hp
        · intro j2 q2 hlt hq2
          obtain ⟨j3, rfl⟩ : ∃ j3, j2 = j3 + 1 := ⟨j2 - 1, by omega⟩
          have := hlast j3 q2 (by omega) (by simpa using hq2)
          have e : i + (j3 + 1) = i + 1 + j3 := by omega
          rw [e]; exact this
      · by_cases hpx : p i x = true
        · left
          rw [if_pos hpx] at hacc
          refine ⟨0, x, by simp, by simpa using (Option.some.inj hacc).symm, by simpa using hpx, ?_⟩
          intro j2 q2 hlt hq2
          obtain ⟨j3, rfl⟩ : ∃ j3, j2 = j3 + 1 := ⟨j2 - 1, by omega⟩
          have := hnone j3 q2 (by simpa using hq2)
          have e : i + (j3 + 1) = i + 1 + j3 := by omega
          rw [e]; exact this
        · right
          rw [if_neg hpx] at hacc
          refine ⟨hacc, ?_⟩
          intro j q hq
          cases j with
          | zero =>
            simp at hq; subst hq; simpa using hpx
          | succ j3 =>
            have := hnone j3 q (by simpa using hq)
            have e : i + (j3 + 1) = i + 1 + j3 := by omega
            rw [e]; exact this
    · rintro (⟨j, q, hq, hk, hp, hlast⟩ | ⟨hacc, hnone⟩)
      · cases j with
        | zero =>
          right
          simp at hq; subst hq
          have hp0 : p i x = true := by simpa using hp
          refine ⟨by rw [if_pos hp0]; simp [hk], ?_⟩
          intro j q hq
          have := hlast (j + 1) q (by omega) (by simpa using hq)
          have e : i + 1 + j = i + (j + 1) := by omega
          rw [e]; exact this
        | succ j3 =>
          left
          refine ⟨j3, q, by simpa using hq, by omega, ?_, ?_⟩
          · have e : i + 1 + j3 = i + (j3 + 1) := by omega
            rw [e]; exact hp
          · intro j2 q2 hlt hq2
            have := hlast (j2 + 1) q2 (by omega) (by simpa using hq2)
            have e : i + 1 + j2 = i + (j2 + 1) := by omega
            rw [e]; exact this
      · right
        have hpx : p i x = false := by simpa using hnone 0 x (by simp)
        refine ⟨by simp [hpx, hacc], ?_⟩
        intro j q hq
        have := hnone (j + 1) q (by simpa using hq)
        have e : i + 1 + j = i + (j + 1) := by omega
        rw [e]; exact this

theorem scan_last_eq_none {α : Type} (p : Nat → α → Bool) (xs : List α) :
    ∀ (i : Nat) (acc : Option Nat),
      scan_last p xs i acc = none ↔
        (acc = none ∧ ∀ j q, xs[j]? = some q → p (i + j) q = false) := by
  induction xs with
  | nil => intro i acc; simp [scan_last]
  | cons x xs ih =>
    intro i acc
    rw [scan_last, ih]
    constructor
    · rintro ⟨hacc, hnone⟩
      by_cases hpx : p i x = true
        <;> simp [hpx] at hacc
      refine ⟨hacc, ?_⟩
      intro j q hq
      cases j with
      | zero => simp at hq; subst hq; simpa using hpx
      | succ j3 =>
        have := hnone j3 q (by simpa using hq)
        have e : i + (j3 + 1) = i + 1 + j3 := by omega
        rw [e]; exact this
    · rintro ⟨hacc, hnone⟩
      have hpx : p i x = false := by simpa using hnone 0 x (by simp)
      refine ⟨by simp [hpx, hacc], ?_⟩
      intro j q hq
      have := hnone (j + 1) q (by simpa using hq)
      have e : i + 1 + j = i + (j + 1) := by omega
      rw [e]; exact this

/-! ## The call log -/

@[simp] theorem World.call_self (w : World) (c : Call) : (w.call c).self = w.self := rfl

@[simp] theorem World.call_calls (w : World) (c : Call) :
    (w.call c).calls = w.calls ++ [c] := rfl

/-! ## Queue families -/

theorem find_queue_families_loop_self (d : Driver) (device : Handle)
    (qs : List VkQueueFamilyProperties) :
    ∀ i indices w, (find_queue_families_loop d device qs i indices w).2.self = w.self := by
  induction qs with
  | nil => intro i indices w; rfl
  | cons q qs ih => intro i indices w; simp [find_queue_families_loop, ih]

theorem find_queue_families_loop_fst (d : Driver) (device : Handle)
    (qs : List VkQueueFamilyProperties) :
    ∀ i indices w, (find_queue_families_loop d device qs i indices w).1 =
      { graphics_family := scan_last (fun _ q => has_graphics q) qs i indices.graphics_family
        present_family :=
          scan_last (fun j _ => d.surface_support device j w.self.surface) qs i
            indices.present_family } := by
  induction qs with
  | nil => intro i indices w; rfl
  | cons q qs ih =>
    intro i indices w
    simp only [find_queue_families_loop, scan_last, ih, World.call_self, has_graphics]
    by_cases hg : q.queueFlags &&& VK_QUEUE_GRAPHICS_BIT ≠ 0 <;>
      by_cases hp : d.surface_support device i w.self.surface = true <;>
      simp [hg, hp]

theorem find_queue_families_fst (d : Driver) (device : Handle) (w : World) :
    (find_queue_families d device w).1 =
      { graphics_family := scan_last (fun _ q => has_graphics q) (d.queue_families device) 0 none
        present_family :=
          scan_last (fun j _ => d.surface_support device j w.self.surface)
            (d.queue_families device) 0 none } := by
  simp [find_queue_families, find_queue_families_loop_fst]

@[simp] theorem find_queue_families_self (d : Driver) (device : Handle) (w : World) :
    (find_queue_families d device w).2.self = w.self := by
  simp [find_queue_families, find_queue_families_loop_self]

/-- C3 (as stated, refuted): on a device whose two queue families both offer
graphics and presentation, `find_queue_families` returns index 1 in both
fields although index 0 is the first family with either capability. -/
theorem find_queue_families_not_first :
    (find_queue_families two_family_driver 1 (fresh garbage_object)).1 =
        { graphics_family := some 1, present_family := some 1 } ∧
      (two_family_driver.queue_families 1)[0]?.map has_graphics = some true ∧
      two_family_driver.surface_support 1 0 (fresh garbage_object).self.surface = true := by
  decide

/-- C3 (amended): `graphics_family` is the last (highest) family index whose
flags include the graphics bit, `present_family` is, independently, the last
(highest) family index for which presentation to the surface is supported, and
each field is empty exactly when no family has that capability. -/
theorem find_queue_families_last_index (d : Driver) (device : Handle) (w : World) :
    (∀ i, (find_queue_families d device w).1.graphics_family = some i ↔
        ∃ q, (d.queue_families device)[i]? = some q ∧ has_graphics q = true ∧
          ∀ j q2, i < j → (d.queue_families device)[j]? = some q2 → has_graphics q2 = false) ∧
    ((find_queue_families d device w).1.graphics_family = none ↔
        ∀ q ∈ d.queue_families device, has_graphics q = false) ∧
    (∀ i, (find_queue_families d device w).1.present_family = some i ↔
        i < (d.queue_families device).length ∧
          d.surface_support device i w.self.surface = true ∧
          ∀ j, i < j → j < (d.queue_families device).length →
            d.surface_support device j w.self.surface = false) ∧
    ((find_queue_families d device w).1.present_family = none ↔
        ∀ j, j < (d.queue_families device).length →
          d.surface_support device j w.self.surface = false) := by
  rw [find_queue_families_fst]
  refine ⟨?_, ?_, ?_, ?_⟩
  · intro i
    simp only [scan_last_eq_some]
    constructor
    · rintro (⟨j, q, hq, rfl, hp, hlast⟩ | ⟨h, _⟩)
      · simp only [Nat.zero_add] at hp ⊢
        exact ⟨q, hq, hp, hlast⟩
      · exact absurd h (by simp)
    · rintro ⟨q, hq, hp, hlast⟩
      exact Or.inl ⟨i, q, hq, by simp, hp, hlast⟩
  · simp only [scan_last_eq_none, true_and]
    constructor
    · intro h q hq
      obtain ⟨j, hj, rfl⟩ := List.mem_iff_getElem.mp hq
      exact h j _ (List.getElem?_eq_getElem hj)
    · intro h j q hq
      exact h q (List.getElem?_mem hq)
  · intro i
    simp only [scan_last_eq_some, Nat.zero_add]
    constructor
    · rintro (⟨j, q, hq, rfl, hp, hlast⟩ | ⟨h, _⟩)
      · refine ⟨(List.getElem?_eq_some_iff.mp hq).1, hp, ?_⟩
        intro j2 h1 h2
        exact hlast j2 _ h1 (List.getElem?_eq_getElem h2)
      · exact absurd h (by simp)
    · rintro ⟨hi, hp, hlast⟩
      refine Or.inl ⟨i, _, List.getElem?_eq_getElem hi, rfl, hp, ?_⟩
      intro j2 q2 h1 h2
      exact hlast j2 h1 (List.getElem?_eq_some_iff.mp h2).1
  · simp only [scan_last_eq_none, true_and, Nat.zero_add]
    constructor
    · intro h j hj
      exact h j _ (List.getElem?_eq_getElem hj)
    · intro h j q hq
      exact h j (List.getElem?_eq_some_iff.mp hq).1

/-! ## `std::set` -/

theorem mem_set_insert {α : Type} [LT α] [DecidableRel (α := α) (· < ·)] [DecidableEq α]
    (x y : α) (s : List α) : y ∈ set_insert x s ↔ y = x ∨ y ∈ s := by
  induction s with
  | nil => simp [set_insert]
  | cons z zs ih =>
    unfold set_insert
    split
    · simp
    · split
      · rename_i _ hxz
        subst hxz
        simp
      · simp only [List.mem_cons, ih]
        tauto

theorem mem_foldl_set_insert {α : Type} [LT α] [DecidableRel (α := α) (· < ·)] [DecidableEq α]
    (xs : List α) : ∀ (s : List α) (y : α),
      y ∈ xs.foldl (fun s x => set_insert x s) s ↔ y ∈ xs ∨ y ∈ s := by
  induction xs with
  | nil => intro s y; simp
  | cons x xs ih =>
    intro s y
    simp only [List.foldl_cons, ih, mem_set_insert, List.mem_cons]
    tauto

theorem mem_set_of_list {α : Type} [LT α] [DecidableRel (α := α) (· < ·)] [DecidableEq α]
    (xs : List α) (y : α) : y ∈ set_of_list xs ↔ y ∈ xs := by
  simp [set_of_list, mem_foldl_set_insert]

theorem mem_set_erase {α : Type} [DecidableEq α] (x y : α) (s : List α) :
    y ∈ set_erase x s ↔ y ∈ s ∧ y ≠ x := by
  simp [set_erase]

theorem mem_foldl_set_erase {α : Type} [DecidableEq α] (xs : List α) :
    ∀ (s : List α) (y : α),
      y ∈ xs.foldl (fun s x => set_erase x s) s ↔ y ∈ s ∧ y ∉ xs := by
  induction xs with
  | nil => intro s y; simp
  | cons x xs ih =>
    intro s y
    simp only [List.foldl_cons, ih, mem_set_erase, List.mem_cons]
    tauto

/-- Erasing every name of `available` from the set built from `required`
leaves nothing exactly when every required name is available. -/
theorem set_difference_empty_iff (required available : List String) :
    (available.foldl (fun s x => set_erase x s) (set_of_list required)).isEmpty = true ↔
      ∀ name ∈ required, name ∈ available := by
  rw [List.isEmpty_iff, List.eq_nil_iff_forall_not_mem]
  simp only [mem_foldl_set_erase, mem_set_of_list]
  constructor
  · intro h name hname
    by_contra hn
    exact h name ⟨hname, hn⟩
  · rintro h name ⟨hname, hn⟩
    exact hn (h name hname)

/-! ## Device extensions -/

theorem device_extensions_supported_fst (d : Driver) (device : Handle) (w : World) :
    (device_extensions_supported d device w).1 =
      ((d.device_extensions device).foldl (fun s x => set_erase x s)
        (set_of_list device_extensions)).isEmpty := rfl

@[simp] theorem device_extensions_supported_self (d : Driver) (device : Handle) (w : World) :
    (device_extensions_supported d device w).2.self = w.self := rfl

/-- C9: `device_extensions_supported` is a superset test computed by set
difference.  For every list of available extension names reported by the
driver, the function returns true (the required set, after erasing every
available name, is empty) if and only if every required device-extension name
occurs in the available list; its value equals the superset requirement of
the specification. -/
theorem device_extensions_supported_iff_superset (d : Driver) (device : Handle) (w : World) :
    ((device_extensions_supported d device w).1 = true ↔
        ∀ name ∈ device_extensions, name ∈ d.device_extensions device) ∧
      (device_extensions_supported d device w).1 =
        spec_extensions_superset (d.device_extensions device) := by
  have h := set_difference_empty_iff device_extensions (d.device_extensions device)
  rw [← device_extensions_supported_fst d device w] at h
  refine ⟨h, ?_⟩
  rw [Bool.eq_iff_iff, h]
  simp [spec_extensions_superset]

/-! ## Device suitability -/

theorem query_swapchain_support_fst (d : Driver) (device : Handle) (w : World) :
    (query_swapchain_support d device w).1 =
      { formats := d.surface_formats device w.self.surface
        present_modes := d.present_modes device w.self.surface } := by
  unfold query_swapchain_support
  by_cases hf : d.surface_formats device w.self.surface = [] <;>
    by_cases hp : d.present_modes device w.self.surface = [] <;>
    simp [hf, hp]

@[simp] theorem query_swapchain_support_self (d : Driver) (device : Handle) (w : World) :
    (query_swapchain_support d device w).2.self = w.self := by
  unfold query_swapchain_support
  by_cases hf : d.surface_formats device w.self.surface = [] <;>
    by_cases hp : d.present_modes device w.self.surface = [] <;>
    simp [hf, hp]

theorem is_device_suitable_fst (d : Driver) (device : Handle) (w : World) :
    (is_device_suitable d device w).1 =
      ((find_queue_families d device w).1.is_complete &&
        (device_extensions_supported d device w).1 &&
        (!(d.surface_formats device w.self.surface).isEmpty &&
          !(d.present_modes device w.self.surface).isEmpty)) := by
  unfold is_device_suitable
  simp only [device_extensions_supported_fst]
  split
  · simp [query_swapchain_support_fst, *]
  · simp [*]

@[simp] theorem is_device_suitable_self (d : Driver) (device : Handle) (w : World) :
    (is_device_suitable d device w).2.self = w.self := by
  unfold is_device_suitable
  simp only [device_extensions_supported_fst]
  split <;> simp

theorem is_device_suitable_congr (d : Driver) (device : Handle) (w w2 : World)
    (h : w2.self.surface = w.self.surface) :
    (is_device_suitable d device w2).1 = (is_device_suitable d device w).1 := by
  simp [is_device_suitable_fst, find_queue_families_fst, device_extensions_supported_fst, h]

theorem find_queue_families_graphics_eq_none (d : Driver) (device : Handle) (w : World) :
    (find_queue_families d device w).1.graphics_family = none ↔
      ∀ q ∈ d.queue_families device, has_graphics q = false := by
  rw [find_queue_families_fst]
  simp only [scan_last_eq_none, true_and]
  constructor
  · intro h q hq
    obtain ⟨j, hj, rfl⟩ := List.mem_iff_getElem.mp hq
    exact h j _ (List.getElem?_eq_getElem hj)
  · intro h j q hq
    exact h q (List.getElem?_mem hq)

theorem find_queue_families_present_eq_none (d : Driver) (device : Handle) (w : World) :
    (find_queue_families d device w).1.present_family = none ↔
      ∀ j, j < (d.queue_families device).length →
        d.surface_support device j w.self.surface = false := by
  rw [find_queue_families_fst]
  simp only [scan_last_eq_none, true_and, Nat.zero_add]
  constructor
  · intro h j hj
    exact h j _ (List.getElem?_eq_getElem hj)
  · intro h j q hq
    exact h j (List.getElem?_eq_some_iff.mp hq).1

/-- C2: `is_device_suitable` returns true if and only if `find_queue_families`
finds both a graphics and a present family, `device_extensions_supported` is
true, and the queried swapchain format list and present-mode list are both
non-empty.  In particular it is false for a device without a graphics-capable
or without a present-capable queue family, false for a device missing a
required extension whatever its queue families and swapchain lists are, and
false for a device with the required extensions but an empty format list or an
empty present-mode list. -/
theorem is_device_suitable_iff (d : Driver) (device : Handle) (w : World) :
    ((is_device_suitable d device w).1 = true ↔
        ((find_queue_families d device w).1.graphics_family.isSome = true ∧
            (find_queue_families d device w).1.present_family.isSome = true) ∧
          (device_extensions_supported d device w).1 = true ∧
          ((query_swapchain_support d device w).1.formats ≠ [] ∧
            (query_swapchain_support d device w).1.present_modes ≠ [])) ∧
    (((∀ q ∈ d.queue_families device, has_graphics q = false) ∨
        (∀ j, j < (d.queue_families device).length →
          d.surface_support device j w.self.surface = false)) →
      (is_device_suitable d device w).1 = false) ∧
    ((∃ name ∈ device_extensions, name ∉ d.device_extensions device) →
      (is_device_suitable d device w).1 = false) ∧
    ((∀ name ∈ device_extensions, name ∈ d.device_extensions device) →
      (d.surface_formats device w.self.surface = [] ∨
        d.present_modes device w.self.surface = []) →
      (is_device_suitable d device w).1 = false) := by
  have hiff : (is_device_suitable d device w).1 = true ↔
      ((find_queue_families d device w).1.graphics_family.isSome = true ∧
          (find_queue_families d device w).1.present_family.isSome = true) ∧
        (device_extensions_supported d device w).1 = true ∧
        ((query_swapchain_support d device w).1.formats ≠ [] ∧
          (query_swapchain_support d device w).1.present_modes ≠ []) := by
    rw [is_device_suitable_fst, query_swapchain_support_fst]
    simp [queue_family_indices.is_complete, and_assoc, List.isEmpty_iff]
  refine ⟨hiff, ?_, ?_, ?_⟩
  · intro h
    rw [← Bool.not_eq_true, hiff]
    rintro ⟨⟨hg, hp⟩, -⟩
    rcases h with h | h
    · rw [(find_queue_families_graphics_eq_none d device w).mpr h] at hg
      simp at hg
    · rw [(find_queue_families_present_eq_none d device w).mpr h] at hp
      simp at hp
  · rintro ⟨name, hname, hmissing⟩
    rw [← Bool.not_eq_true, hiff]
    rintro ⟨-, hext, -⟩
    rw [device_extensions_supported_fst, set_difference_empty_iff] at hext
    exact hmissing (hext name hname)
  · intro _ h
    rw [← Bool.not_eq_true, hiff, query_swapchain_support_fst]
    rintro ⟨-, -, hf, hp⟩
    rcases h with h | h
    · exact hf h
    · exact hp h

/-! ## Device selection -/

theorem pick_physical_device_loop_self (d : Driver) (devices : List Handle) :
    ∀ w : World, (pick_physical_device_loop d devices w).self =
      match devices.find? (fun device => (is_device_suitable d device w).1) with
      | some device => { w.self with physical_device := device }
      | none => w.self := by
  induction devices with
  | nil => intro w; rfl
  | cons device rest ih =>
    intro w
    unfold pick_physical_device_loop
    by_cases hs : (is_device_suitable d device w).1 = true
    · simp [hs]
    · have hfun : (fun x => (is_device_suitable d x (is_device_suitable d device w).2).1) =
          (fun x => (is_device_suitable d x w).1) := by
        funext x
        exact is_device_suitable_congr d x w _ (by simp)
      simp only [hs, List.find?_cons]
      simp only [Bool.false_eq_true, if_false]
      rw [ih, hfun, is_device_suitable_self]

theorem pick_physical_device_self (d : Driver) (w : World)
    (hne : d.physical_devices w.self.instance_ ≠ []) :
    (pick_physical_device d w).2.self =
      match (d.physical_devices w.self.instance_).find?
          (fun device => (is_device_suitable d device w).1) with
      | some device => { w.self with physical_device := device }
      | none => w.self := by
  have hfun : (fun x => (is_device_suitable d x
        ((w.call (.vkEnumeratePhysicalDevices w.self.instance_ false)).call
          (.vkEnumeratePhysicalDevices w.self.instance_ true))).1) =
      (fun x => (is_device_suitable d x w).1) := by
    funext x
    exact is_device_suitable_congr d x w _ (by simp)
  unfold pick_physical_device
  simp only [List.length_eq_zero, hne, if_false]
  split <;> simp [pick_physical_device_loop_self, hfun]

theorem pick_physical_device_fst (d : Driver) (w : World)
    (hne : d.physical_devices w.self.instance_ ≠ []) :
    (pick_physical_device d w).1 =
      if (pick_physical_device d w).2.self.physical_device = VK_NULL_HANDLE then
        .error (.runtime_error "Failed to find a suitable GPU!")
      else .ok () := by
  unfold pick_physical_device
  simp only [List.length_eq_zero, hne, if_false]
  split <;> simp [*]

/-- The outcome of `pick_physical_device` on a non-empty list of valid handles,
in terms of the first suitable device of the list. -/
theorem pick_physical_device_find (d : Driver) (w : World)
    (hnull : w.self.physical_device = VK_NULL_HANDLE)
    (hne : d.physical_devices w.self.instance_ ≠ [])
    (hvalid : ∀ h ∈ d.physical_devices w.self.instance_, h ≠ VK_NULL_HANDLE) :
    match (d.physical_devices w.self.instance_).find?
        (fun device => (is_device_suitable d device w).1) with
    | some device =>
      (pick_physical_device d w).1 = .ok () ∧
        (pick_physical_device d w).2.self.physical_device = device
    | none =>
      (pick_physical_device d w).1 = .error (.runtime_error "Failed to find a suitable GPU!") ∧
        (pick_physical_device d w).2.self.physical_device = VK_NULL_HANDLE := by
  have hself := pick_physical_device_self d w hne
  have hfst := pick_physical_device_fst d w hne
  cases hfind : (d.physical_devices w.self.instance_).find?
      (fun device => (is_device_suitable d device w).1) with
  | none =>
    rw [hfind] at hself
    simp only at hself ⊢
    rw [hfst, hself, hnull]
    simp
  | some device =>
    rw [hfind] at hself
    simp only at hself ⊢
    have hdev : device ≠ VK_NULL_HANDLE := hvalid device (List.mem_of_find?_eq_some hfind)
    rw [hfst, hself]
    simp [hdev]

/-- C1: for every non-empty enumerated device list (of valid, non-null handles,
for an object whose `physical_device` still holds its initial null handle),
`pick_physical_device` selects the first device in enumeration order for which
`is_device_suitable` returns true, never a later one; with two devices of which
the first lacks the swapchain extension and the second is suitable, the second
is selected; and it fails with the "no suitable GPU" error exactly when no
enumerated device is suitable. -/
theorem pick_physical_device_first_suitable (d : Driver) (w : World)
    (hnull : w.self.physical_device = VK_NULL_HANDLE)
    (hne : d.physical_devices w.self.instance_ ≠ [])
    (hvalid : ∀ h ∈ d.physical_devices w.self.instance_, h ≠ VK_NULL_HANDLE) :
    (∀ pre device post, d.physical_devices w.self.instance_ = pre ++ device :: post →
        (∀ x ∈ pre, (is_device_suitable d x w).1 = false) →
        (is_device_suitable d device w).1 = true →
        (pick_physical_device d w).1 = .ok () ∧
          (pick_physical_device d w).2.self.physical_device = device) ∧
    ((pick_physical_device d w).1 = .ok () →
        ∃ pre post, d.physical_devices w.self.instance_ =
            pre ++ (pick_physical_device d w).2.self.physical_device :: post ∧
          (∀ x ∈ pre, (is_device_suitable d x w).1 = false) ∧
          (is_device_suitable d (pick_physical_device d w).2.self.physical_device w).1 = true) ∧
    (∀ first second, d.physical_devices w.self.instance_ = [first, second] →
        VK_KHR_SWAPCHAIN_EXTENSION_NAME ∉ d.device_extensions first →
        (is_device_suitable d second w).1 = true →
        (pick_physical_device d w).1 = .ok () ∧
          (pick_physical_device d w).2.self.physical_device = second) ∧
    ((pick_physical_device d w).1 = .error (.runtime_error "Failed to find a suitable GPU!") ↔
        ∀ x ∈ d.physical_devices w.self.instance_, (is_device_suitable d x w).1 = false) := by
  have hfind := pick_physical_device_find d w hnull hne hvalid
  have hfirst : ∀ pre device post, d.physical_devices w.self.instance_ = pre ++ device :: post →
      (∀ x ∈ pre, (is_device_suitable d x w).1 = false) →
      (is_device_suitable d device w).1 = true →
      (pick_physical_device d w).1 = .ok () ∧
        (pick_physical_device d w).2.self.physical_device = device := by
    intro pre device post hsplit hpre hdev
    have : (d.physical_devices w.self.instance_).find?
        (fun device => (is_device_suitable d device w).1) = some device := by
      rw [List.find?_eq_some]
      exact ⟨hdev, pre, post, hsplit, fun a ha => by simp [hpre a ha]⟩
    rw [this] at hfind
    exact hfind
  refine ⟨hfirst, ?_, ?_, ?_⟩
  · intro hok
    cases hf : (d.physical_devices w.self.instance_).find?
        (fun device => (is_device_suitable d device w).1) with
    | none =>
      rw [hf] at hfind
      rw [hfind.1] at hok
      cases hok
    | some device =>
      rw [hf] at hfind
      obtain ⟨hdev, pre, post, hsplit, hpre⟩ := List.find?_eq_some.mp hf
      rw [hfind.2]
      exact ⟨pre, post, hsplit, fun x hx => by simpa using hpre x hx, hdev⟩
  · intro first second hlist hmissing hsecond
    refine hfirst [first] second [] (by simpa using hlist) ?_ hsecond
    intro x hx
    rw [List.mem_singleton] at hx
    subst hx
    rw [← Bool.not_eq_true, is_device_suitable_fst]
    intro hsuit
    simp only [Bool.and_eq_true] at hsuit
    have hext := hsuit.1.2
    rw [device_extensions_supported_fst, set_difference_empty_iff] at hext
    exact hmissing (hext _ (by simp [device_extensions]))
  · cases hf : (d.physical_devices w.self.instance_).find?
        (fun device => (is_device_suitable d device w).1) with
    | none =>
      rw [hf] at hfind
      constructor
      · intro _ x hx
        have := List.find?_eq_none.mp hf x hx
        simpa using this
      · intro _
        exact hfind.1
    | some device =>
      rw [hf] at hfind
      constructor
      · intro herr
        rw [hfind.1] at herr
        cases herr
      · intro hall
        have hdev := List.find?_some hf
        rw [hall device (List.mem_of_find?_eq_some hf)] at hdev
        cases hdev

/-- Witness for C1: two GPUs, the first without the swapchain extension. -/
theorem pick_physical_device_first_suitable_witness :
    (pick_physical_device two_gpu_driver (fresh garbage_object)).1 = .ok () ∧
      (pick_physical_device two_gpu_driver (fresh garbage_object)).2.self.physical_device = 2 :=
  (pick_physical_device_first_suitable two_gpu_driver (fresh garbage_object) rfl
    (by decide) (by decide)).2.2.1 1 2 rfl (by decide) (by decide)

/-- C7: when the driver reports zero physical devices, `pick_physical_device`
fails with the "no GPUs" error; the count query is the only call it makes (no
device list is fetched and no suitability query is issued), and the object,
in particular the null `physical_device`, is left unchanged. -/
theorem pick_physical_device_no_gpus (d : Driver) (w : World)
    (hnull : w.self.physical_device = VK_NULL_HANDLE)
    (hzero : d.physical_devices w.self.instance_ = []) :
    (pick_physical_device d w).1 =
        .error (.runtime_error "Failed to find GPUs with Vulkan support!") ∧
      (pick_physical_device d w).2.calls =
        w.calls ++ [.vkEnumeratePhysicalDevices w.self.instance_ false] ∧
      (pick_physical_device d w).2.self = w.self ∧
      (pick_physical_device d w).2.self.physical_device = VK_NULL_HANDLE := by
  simp [pick_physical_device, hzero, hnull]

/-- Witness for C7: a driver without any GPU. -/
theorem pick_physical_device_no_gpus_witness :
    (pick_physical_device no_gpu_driver (fresh garbage_object)).1 =
        .error (.runtime_error "Failed to find GPUs with Vulkan support!") ∧
      (pick_physical_device no_gpu_driver (fresh garbage_object)).2.calls =
        (fresh garbage_object).calls ++
          [.vkEnumeratePhysicalDevices (fresh garbage_object).self.instance_ false] ∧
      (pick_physical_device no_gpu_driver (fresh garbage_object)).2.self =
        (fresh garbage_object).self ∧
      (pick_physical_device no_gpu_driver (fresh garbage_object)).2.self.physical_device =
        VK_NULL_HANDLE :=
  pick_physical_device_no_gpus no_gpu_driver (fresh garbage_object) rfl rfl

/-- A successful selection stores a device that passed the suitability test. -/
theorem pick_physical_device_ok_suitable (d : Driver) (w w2 : World)
    (hnull : w.self.physical_device = VK_NULL_HANDLE)
    (hpick : pick_physical_device d w = (.ok (), w2)) :
    (is_device_suitable d w2.self.physical_device w).1 = true ∧
      w2.self = { w.self with physical_device := w2.self.physical_device } := by
  have hne : d.physical_devices w.self.instance_ ≠ [] := by
    intro h
    have : (pick_physical_device d w).1 = .ok () := by rw [hpick]
    simp [pick_physical_device, h] at this
  have hself := pick_physical_device_self d w hne
  have hfst := pick_physical_device_fst d w hne
  rw [hpick] at hself hfst
  simp only at hself hfst
  have hnn : w2.self.physical_device ≠ VK_NULL_HANDLE := by
    intro h
    rw [if_pos h] at hfst
    cases hfst
  cases hf : (d.physical_devices w.self.instance_).find?
      (fun device => (is_device_suitable d device w).1) with
  | none =>
    rw [hf] at hself
    simp only at hself
    rw [hself] at hnn
    exact absurd hnull hnn
  | some device =>
    rw [hf] at hself
    simp only at hself
    have hdev : (is_device_suitable d device w).1 = true := (List.find?_eq_some.mp hf).1
    rw [hself]
    exact ⟨hdev, rfl⟩

/-- C10: the unchecked `value()` accesses of `create_logical_device` cannot
fail after a successful selection.  The driver answers repeated queries alike
(its answers are functions of the arguments).  Whenever `pick_physical_device`
completes without error on an object whose `physical_device` was still null,
the `find_queue_families` result recomputed for the selected device has both
fields populated, and `create_logical_device` does not end in
`bad_optional_access`. -/
theorem create_logical_device_value_access_safe (validation_layers_enabled : Bool)
    (d : Driver) (w w2 : World)
    (hnull : w.self.physical_device = VK_NULL_HANDLE)
    (hpick : pick_physical_device d w = (.ok (), w2)) :
    (find_queue_families d w2.self.physical_device w2).1.graphics_family.isSome = true ∧
      (find_queue_families d w2.self.physical_device w2).1.present_family.isSome = true ∧
      (create_logical_device validation_layers_enabled d w2).1 ≠ .error .bad_optional_access := by
  obtain ⟨hsuit, hself⟩ := pick_physical_device_ok_suitable d w w2 hnull hpick
  have hsurf : w2.self.surface = w.self.surface := by rw [hself]
  have hfq : (find_queue_families d w2.self.physical_device w2).1 =
      (find_queue_families d w2.self.physical_device w).1 := by
    simp only [find_queue_families_fst, hsurf]
  rw [is_device_suitable_fst] at hsuit
  simp only [Bool.and_eq_true, queue_family_indices.is_complete] at hsuit
  obtain ⟨⟨⟨hg, hp⟩, -⟩, -⟩ := hsuit
  rw [← hfq] at hg hp
  refine ⟨hg, hp, ?_⟩
  obtain ⟨g, hg2⟩ := Option.isSome_iff_exists.mp hg
  obtain ⟨p, hp2⟩ := Option.isSome_iff_exists.mp hp
  unfold create_logical_device
  simp only [hg2, hp2]
  split <;> simp

/-- Witness for C10: selection on the mock driver succeeds. -/
theorem create_logical_device_value_access_safe_witness :
    (find_queue_families mock_driver 1
        (pick_physical_device mock_driver (fresh garbage_object)).2).1.graphics_family.isSome
        = true ∧
      (find_queue_families mock_driver 1
        (pick_physical_device mock_driver (fresh garbage_object)).2).1.present_family.isSome
        = true ∧
      (create_logical_device true mock_driver
        (pick_physical_device mock_driver (fresh garbage_object)).2).1 ≠
          .error .bad_optional_access :=
  create_logical_device_value_access_safe true mock_driver (fresh garbage_object)
    (pick_physical_device mock_driver (fresh garbage_object)).2 rfl rfl

/-! ## Queue-create entries -/

theorem set_of_list_pair (g p : Nat) :
    set_of_list [g, p] = if p < g then [p, g] else if p = g then [g] else [g, p] := by
  simp [set_of_list, set_insert]

theorem create_logical_device_calls (validation_layers_enabled : Bool) (d : Driver) (w : World)
    (g p : Nat)
    (hfam : (find_queue_families d w.self.physical_device w).1 =
      { graphics_family := some g, present_family := some p }) :
    ∃ rest, (create_logical_device validation_layers_enabled d w).2.calls =
      (find_queue_families d w.self.physical_device w).2.calls ++
        Call.vkCreateDevice w.self.physical_device
          { pQueueCreateInfos := queue_create_infos g p
            ppEnabledExtensionNames := device_extensions
            ppEnabledLayerNames :=
              if validation_layers_enabled then validation_layers else [] } :: rest := by
  unfold create_logical_device
  simp only [hfam, find_queue_families_self]
  split <;> simp

/-- C4: `create_logical_device` deduplicates the queue families.  For every
graphics-family index `g` and present-family index `p` the list of
queue-create entries has one entry per distinct value among `g` and `p` (one
entry when `g = p`, two when `g ≠ p`), the family indices of the entries are
pairwise distinct and are exactly the values `g` and `p`, and every entry
requests `queueCount = 1`; this list is what `create_logical_device` passes to
`vkCreateDevice` when `find_queue_families` reports `g` and `p`. -/
theorem create_logical_device_deduplicates (g p : Nat) :
    (queue_create_infos g p).length = (if g = p then 1 else 2) ∧
    ((queue_create_infos g p).map (fun e => e.queueFamilyIndex)).Nodup ∧
    (∀ i, i ∈ (queue_create_infos g p).map (fun e => e.queueFamilyIndex) ↔ i = g ∨ i = p) ∧
    (∀ e ∈ queue_create_infos g p, e.queueCount = 1) ∧
    (∀ (validation_layers_enabled : Bool) (d : Driver) (w : World),
      (find_queue_families d w.self.physical_device w).1 =
          { graphics_family := some g, present_family := some p } →
        ∃ rest, (create_logical_device validation_layers_enabled d w).2.calls =
          (find_queue_families d w.self.physical_device w).2.calls ++
            Call.vkCreateDevice w.self.physical_device
              { pQueueCreateInfos := queue_create_infos g p
                ppEnabledExtensionNames := device_extensions
                ppEnabledLayerNames :=
                  if validation_layers_enabled then validation_layers else [] } :: rest) := by
  refine ⟨?_, ?_, ?_, ?_, fun v d w h => create_logical_device_calls v d w g p h⟩
  · simp only [queue_create_infos, set_of_list_pair, List.length_map]
    split_ifs <;> first | rfl | omega
  · simp only [queue_create_infos, set_of_list_pair, List.map_map]
    split_ifs <;> simp <;> omega
  · intro i
    simp only [queue_create_infos, set_of_list_pair, List.map_map]
    split_ifs <;> simp <;> omega
  · intro e he
    simp only [queue_create_infos, List.mem_map] at he
    obtain ⟨_, _, rfl⟩ := he
    rfl

/-! ## Validation layers -/

theorem vulkan_validation_layers_supported_iff (d : Driver) (w : World) :
    (vulkan_validation_layers_supported d w).1 = true ↔
      ∀ name ∈ validation_layers, name ∈ d.instance_layers := by
  simp [vulkan_validation_layers_supported]

theorem create_vulkan_instance_body_fst (validation_layers_enabled : Bool) (d : Driver)
    (w : World) :
    (create_vulkan_instance_body validation_layers_enabled d w).1 ≠
      .error (.runtime_error "Requested Vulkan validation layers are not supported!") := by
  unfold create_vulkan_instance_body
  simp only
  split
  · simp
  · intro h
    injection h with h
    injection h with h
    revert h
    decide

/-- C8: with validation enabled, `create_vulkan_instance` fails with the
unsupported-validation-layer error if and only if some requested layer name is
absent from the enumerated layer list, and in that case the only calls it has
made are the two layer enumerations, so no instance-creation call precedes the
failure; `vulkan_validation_layers_supported` returns true exactly when every
requested layer name equals the name of some enumerated layer.  With
validation disabled the layer check is not evaluated and never causes a
failure. -/
theorem create_vulkan_instance_layer_check (d : Driver) (w : World) :
    ((vulkan_validation_layers_supported d w).1 = true ↔
        ∀ name ∈ validation_layers, ∃ layerName ∈ d.instance_layers, name = layerName) ∧
    ((create_vulkan_instance true d w).1 =
          .error (.runtime_error "Requested Vulkan validation layers are not supported!") ↔
        ∃ name ∈ validation_layers, name ∉ d.instance_layers) ∧
    ((∃ name ∈ validation_layers, name ∉ d.instance_layers) →
        (create_vulkan_instance true d w).2.calls =
            w.calls ++ [.vkEnumerateInstanceLayerProperties false,
              .vkEnumerateInstanceLayerProperties true] ∧
          ∀ create_info, Call.vkCreateInstance create_info ∉
            calls_since w (create_vulkan_instance true d w).2) ∧
    ((create_vulkan_instance false d w).1 ≠
          .error (.runtime_error "Requested Vulkan validation layers are not supported!") ∧
        ∀ fetch, Call.vkEnumerateInstanceLayerProperties fetch ∉
          calls_since w (create_vulkan_instance false d w).2) := by
  have hsup := vulkan_validation_layers_supported_iff d w
  refine ⟨?_, ?_, ?_, ?_, ?_⟩
  · rw [hsup]
    simp
  · constructor
    · intro herr
      by_contra hall
      have hall2 : ∀ name ∈ validation_layers, name ∈ d.instance_layers := by
        intro name hname
        by_contra hn
        exact hall ⟨name, hname, hn⟩
      have hs := hsup.mpr hall2
      unfold create_vulkan_instance at herr
      simp only [if_true, hs, Bool.not_true, Bool.false_eq_true, if_false] at herr
      exact create_vulkan_instance_body_fst _ _ _ herr
    · rintro ⟨name, hname, hmissing⟩
      have hs : (vulkan_validation_layers_supported d w).1 = false := by
        rw [← Bool.not_eq_true, hsup]
        intro hall
        exact hmissing (hall name hname)
      unfold create_vulkan_instance
      simp [hs]
  · rintro ⟨name, hname, hmissing⟩
    have hs : (vulkan_validation_layers_supported d w).1 = false := by
      rw [← Bool.not_eq_true, hsup]
      intro hall
      exact hmissing (hall name hname)
    have hcalls : (create_vulkan_instance true d w).2.calls =
        w.calls ++ [.vkEnumerateInstanceLayerProperties false,
          .vkEnumerateInstanceLayerProperties true] := by
      unfold create_vulkan_instance
      simp only [if_true, hs]
      simp [vulkan_validation_layers_supported]
    refine ⟨hcalls, ?_⟩
    intro create_info
    simp [calls_since, hcalls]
  · unfold create_vulkan_instance
    simp only [Bool.false_eq_true, if_false]
    exact create_vulkan_instance_body_fst _ _ _
  · intro fetch
    unfold create_vulkan_instance
    simp only [Bool.false_eq_true, if_false]
    unfold create_vulkan_instance_body required_vulkan_extensions
    simp only
    split <;> simp [calls_since]

/-! ## Acquisitions made by the constructor -/

@[simp] theorem acquisitions_append (xs ys : List Call) :
    acquisitions (xs ++ ys) = acquisitions xs ++ acquisitions ys := by
  simp [acquisitions]

@[simp] theorem acquisitions_nil : acquisitions [] = [] := rfl

@[simp] theorem acquisitions_cons (c : Call) (cs : List Call) :
    acquisitions (c :: cs) = c.acquires.toList ++ acquisitions cs := by
  cases h : c.acquires <;> simp [acquisitions, List.filterMap_cons, h]

theorem find_queue_families_loop_acquisitions (d : Driver) (device : Handle)
    (qs : List VkQueueFamilyProperties) :
    ∀ i indices w,
      acquisitions (find_queue_families_loop d device qs i indices w).2.calls =
        acquisitions w.calls := by
  induction qs with
  | nil => intro i indices w; rfl
  | cons q qs ih => intro i indices w; simp [find_queue_families_loop, ih, Call.acquires]

@[simp] theorem find_queue_families_acquisitions (d : Driver) (device : Handle) (w : World) :
    acquisitions (find_queue_families d device w).2.calls = acquisitions w.calls := by
  simp [find_queue_families, find_queue_families_loop_acquisitions, Call.acquires]

@[simp] theorem device_extensions_supported_acquisitions (d : Driver) (device : Handle)
    (w : World) :
    acquisitions (device_extensions_supported d device w).2.calls = acquisitions w.calls := by
  simp [device_extensions_supported, Call.acquires]

@[simp] theorem query_swapchain_support_acquisitions (d : Driver) (device : Handle)
    (w : World) :
    acquisitions (query_swapchain_support d device w).2.calls = acquisitions w.calls := by
  unfold query_swapchain_support
  by_cases hf : d.surface_formats device w.self.surface = [] <;>
    by_cases hp : d.present_modes device w.self.surface = [] <;>
    simp [hf, hp, Call.acquires]

@[simp] theorem is_device_suitable_acquisitions (d : Driver) (device : Handle) (w : World) :
    acquisitions (is_device_suitable d device w).2.calls = acquisitions w.calls := by
  unfold is_device_suitable
  simp only [device_extensions_supported_fst]
  split <;> simp

theorem pick_physical_device_loop_acquisitions (d : Driver) (devices : List Handle) :
    ∀ w : World, acquisitions (pick_physical_device_loop d devices w).calls =
      acquisitions w.calls := by
  induction devices with
  | nil => intro w; rfl
  | cons device rest ih =>
    intro w
    unfold pick_physical_device_loop
    by_cases hs : (is_device_suitable d device w).1 = true
    · simp [hs]
    · simp [hs, ih]

theorem pick_physical_device_loop_instance (d : Driver) (devices : List Handle) :
    ∀ w : World, (pick_physical_device_loop d devices w).self.instance_ = w.self.instance_ := by
  intro w
  rw [pick_physical_device_loop_self]
  split <;> rfl

theorem pick_physical_device_quiet (d : Driver) (w : World) :
    acquisitions (pick_physical_device d w).2.calls = acquisitions w.calls ∧
      (pick_physical_device d w).2.self.instance_ = w.self.instance_ := by
  unfold pick_physical_device
  simp only
  split
  · simp [Call.acquires]
  · split <;>
      simp [pick_physical_device_loop_acquisitions, pick_physical_device_loop_instance,
        Call.acquires]

theorem init_window_acquisitions (d : Driver) (w : World) :
    acquisitions (init_window d w).calls =
      acquisitions w.calls ++ [Resource.windowing_subsystem, Resource.window] := by
  simp [init_window, Call.acquires]

theorem create_vulkan_instance_body_ok (validation_layers_enabled : Bool) (d : Driver)
    (w w2 : World)
    (h : create_vulkan_instance_body validation_layers_enabled d w = (.ok (), w2)) :
    acquisitions w2.calls = acquisitions w.calls ++ [Resource.vulkan_instance] := by
  unfold create_vulkan_instance_body required_vulkan_extensions at h
  simp only at h
  split at h
  · injection h with _ h2
    subst h2
    simp [Call.acquires]
  · injection h with h1 _
    cases h1

theorem create_vulkan_instance_ok (validation_layers_enabled : Bool) (d : Driver)
    (w w2 : World)
    (h : create_vulkan_instance validation_layers_enabled d w = (.ok (), w2)) :
    acquisitions w2.calls = acquisitions w.calls ++ [Resource.vulkan_instance] := by
  unfold create_vulkan_instance at h
  split at h
  · simp only at h
    split at h
    · injection h with h1 _
      cases h1
    · rw [create_vulkan_instance_body_ok _ _ _ _ h]
      simp [vulkan_validation_layers_supported, Call.acquires]
  · exact create_vulkan_instance_body_ok _ _ _ _ h

theorem setup_debug_messenger_ok (validation_layers_enabled : Bool) (d : Driver)
    (w w2 : World)
    (h : setup_debug_messenger validation_layers_enabled d w = (.ok (), w2)) :
    acquisitions w2.calls =
        acquisitions w.calls ++
          (if validation_layers_enabled then [Resource.debug_messenger] else []) ∧
      w2.self.instance_ = w.self.instance_ ∧
      (validation_layers_enabled = true →
        d.vkGetInstanceProcAddr w.self.instance_ "vkCreateDebugUtilsMessengerEXT" = true) := by
  cases validation_layers_enabled with
  | false =>
    simp only [setup_debug_messenger, Bool.not_false, if_true] at h
    injection h with _ h2
    subst h2
    simp
  | true =>
    simp only [setup_debug_messenger, Bool.not_true, Bool.false_eq_true, if_false,
      vkCreateDebugUtilsMessengerEXT] at h
    by_cases hproc :
        d.vkGetInstanceProcAddr w.self.instance_ "vkCreateDebugUtilsMessengerEXT" = true
    · simp only [hproc, if_true] at h
      split at h
      · injection h with _ h2
        subst h2
        simp [Call.acquires, hproc]
      · injection h with h1 _
        cases h1
    · simp only [hproc, if_false] at h
      injection h with h1 _
      cases h1

theorem create_surface_ok (d : Driver) (w w2 : World)
    (h : create_surface d w = (.ok (), w2)) :
    acquisitions w2.calls = acquisitions w.calls ++ [Resource.surface] ∧
      w2.self.instance_ = w.self.instance_ := by
  unfold create_surface at h
  simp only at h
  split at h
  · injection h with _ h2
    subst h2
    simp [Call.acquires]
  · injection h with h1 _
    cases h1

theorem create_logical_device_ok (validation_layers_enabled : Bool) (d : Driver)
    (w w2 : World)
    (h : create_logical_device validation_layers_enabled d w = (.ok (), w2)) :
    acquisitions w2.calls = acquisitions w.calls ++ [Resource.logical_device] ∧
      w2.self.instance_ = w.self.instance_ := by
  unfold create_logical_device at h
  simp only at h
  split at h
  · injection h with h1 _
    cases h1
  · split at h
    · injection h with h1 _
      cases h1
    · split at h
      · injection h with h1 _
        cases h1
      · injection h with _ h2
        subst h2
        simp [Call.acquires]

theorem and_then_eq_ok (r : Except Error Unit × World)
    (next : World → Except Error Unit × World) (w : World)
    (h : and_then r next = (.ok (), w)) :
    ∃ w1, r = (.ok (), w1) ∧ next w1 = (.ok (), w) := by
  obtain ⟨res, w1⟩ := r
  cases res with
  | error e =>
    simp only [and_then] at h
    injection h with h1 _
    cases h1
  | ok u => exact ⟨w1, rfl, h⟩

/-- What a successful run of the constructor has done: the resources it
acquired, in order, and, with validation enabled, that the loader resolved
`vkCreateDebugUtilsMessengerEXT` for the instance stored in the object. -/
theorem application_constructor_ok (validation_layers_enabled : Bool) (d : Driver)
    (w0 w : World)
    (h : application_constructor validation_layers_enabled d w0 = (.ok (), w)) :
    acquisitions w.calls =
        acquisitions w0.calls ++
          ([Resource.windowing_subsystem, Resource.window, Resource.vulkan_instance] ++
            (if validation_layers_enabled then [Resource.debug_messenger] else []) ++
            [Resource.surface, Resource.logical_device]) ∧
      (validation_layers_enabled = true →
        d.vkGetInstanceProcAddr w.self.instance_ "vkCreateDebugUtilsMessengerEXT" = true) := by
  unfold application_constructor init_vulkan at h
  obtain ⟨w1, h1, h⟩ := and_then_eq_ok _ _ _ h
  obtain ⟨w2, h2, h⟩ := and_then_eq_ok _ _ _ h
  obtain ⟨w3, h3, h⟩ := and_then_eq_ok _ _ _ h
  obtain ⟨w4, h4, h5⟩ := and_then_eq_ok _ _ _ h
  have a1 := create_vulkan_instance_ok _ _ _ _ h1
  obtain ⟨a2, i2, p2⟩ := setup_debug_messenger_ok _ _ _ _ h2
  obtain ⟨a3, i3⟩ := create_surface_ok _ _ _ h3
  have q4 := pick_physical_device_quiet d w3
  rw [h4] at q4
  obtain ⟨a4, i4⟩ := q4
  obtain ⟨a5, i5⟩ := create_logical_device_ok _ _ _ _ h5
  constructor
  · rw [a5, a4, a3, a2, a1, init_window_acquisitions]
    simp
  · intro hv
    rw [i5, i4, i3, i2]
    exact p2 hv

/-- The precondition of the selection theorems holds where the constructor
calls `pick_physical_device`: the steps before it leave `physical_device` at
its initial null handle. -/
theorem physical_device_null_before_selection (validation_layers_enabled : Bool) (d : Driver)
    (garbage : application) (w1 w2 w3 : World)
    (h1 : create_vulkan_instance validation_layers_enabled d (init_window d (fresh garbage)) =
      (.ok (), w1))
    (h2 : setup_debug_messenger validation_layers_enabled d w1 = (.ok (), w2))
    (h3 : create_surface d w2 = (.ok (), w3)) :
    w3.self.physical_device = VK_NULL_HANDLE := by
  have e1 : w1.self.physical_device = VK_NULL_HANDLE := by
    have hbody : ∀ w, w.self.physical_device = VK_NULL_HANDLE →
        create_vulkan_instance_body validation_layers_enabled d w = (.ok (), w1) →
        w1.self.physical_device = VK_NULL_HANDLE := by
      intro w hw hb
      unfold create_vulkan_instance_body required_vulkan_extensions at hb
      simp only at hb
      split at hb
      · injection hb with _ hb2
        subst hb2
        simpa using hw
      · injection hb with hb1 _
        cases hb1
    unfold create_vulkan_instance at h1
    split at h1
    · simp only at h1
      split at h1
      · injection h1 with h _
        cases h
      · exact hbody _ (by simp [vulkan_validation_layers_supported, init_window, fresh]) h1
    · exact hbody _ (by simp [init_window, fresh]) h1
  have e2 : w2.self.physical_device = VK_NULL_HANDLE := by
    cases validation_layers_enabled with
    | false =>
      simp only [setup_debug_messenger, Bool.not_false, if_true] at h2
      injection h2 with _ h
      subst h
      exact e1
    | true =>
      simp only [setup_debug_messenger, Bool.not_true, Bool.false_eq_true, if_false,
        vkCreateDebugUtilsMessengerEXT] at h2
      by_cases hproc :
          d.vkGetInstanceProcAddr w1.self.instance_ "vkCreateDebugUtilsMessengerEXT" = true
      · simp only [hproc, if_true] at h2
        split at h2
        · injection h2 with _ h
          subst h
          simpa using e1
        · injection h2 with h _
          cases h
      · simp only [hproc, if_false] at h2
        injection h2 with h _
        cases h
  unfold create_surface at h3
  simp only at h3
  split at h3
  · injection h3 with _ h
    subst h
    simpa using e2
  · injection h3 with h _
    cases h

/-! ## Teardown -/

theorem application_destructor_calls (validation_layers_enabled : Bool) (d : Driver)
    (w : World) :
    calls_since w (application_destructor validation_layers_enabled d w) =
      [Call.vkDestroyDevice w.self.device] ++
        (if validation_layers_enabled then
          [Call.vkGetInstanceProcAddr w.self.instance_ "vkDestroyDebugUtilsMessengerEXT"] ++
            (if d.vkGetInstanceProcAddr w.self.instance_ "vkDestroyDebugUtilsMessengerEXT" then
              [Call.pfn_vkDestroyDebugUtilsMessengerEXT w.self.instance_ w.self.debug_messenger]
            else [])
        else []) ++
        [Call.vkDestroySurfaceKHR w.self.instance_ w.self.surface,
          Call.vkDestroyInstance w.self.instance_,
          Call.glfwDestroyWindow w.self.window,
          Call.glfwTerminate] := by
  unfold calls_since application_destructor vkDestroyDebugUtilsMessengerEXT
  cases validation_layers_enabled with
  | false => simp
  | true =>
    by_cases hproc :
        d.vkGetInstanceProcAddr w.self.instance_ "vkDestroyDebugUtilsMessengerEXT" = true
    · simp [hproc]
    · simp [hproc]

/-- C5: for a fully initialised application (the constructor has completed; the
loader resolves the destroy function of the debug-utils extension wherever it
resolves the create function), the release calls issued by the destructor are,
in this order and with nothing else and nothing repeated: destroy logical
device, destroy debug messenger (present if and only if validation is
enabled), destroy surface, destroy instance, destroy window, terminate the
windowing subsystem. -/
theorem application_destructor_release_calls (validation_layers_enabled : Bool) (d : Driver)
    (garbage : application) (w : World)
    (hinit : application_constructor validation_layers_enabled d (fresh garbage) = (.ok (), w))
    (hext : ∀ inst, d.vkGetInstanceProcAddr inst "vkCreateDebugUtilsMessengerEXT" = true →
      d.vkGetInstanceProcAddr inst "vkDestroyDebugUtilsMessengerEXT" = true) :
    (calls_since w (application_destructor validation_layers_enabled d w)).filter is_release =
      [Call.vkDestroyDevice w.self.device] ++
        (if validation_layers_enabled then
          [Call.pfn_vkDestroyDebugUtilsMessengerEXT w.self.instance_ w.self.debug_messenger]
        else []) ++
        [Call.vkDestroySurfaceKHR w.self.instance_ w.self.surface,
          Call.vkDestroyInstance w.self.instance_,
          Call.glfwDestroyWindow w.self.window,
          Call.glfwTerminate] := by
  rw [application_destructor_calls]
  cases validation_layers_enabled with
  | false => simp [is_release, Call.releases]
  | true =>
    have hproc := hext _ ((application_constructor_ok true d _ w hinit).2 rfl)
    simp [hproc, is_release, Call.releases]

/-- Witness for C5: the application built on the mock driver with validation
enabled. -/
theorem application_destructor_release_calls_witness :
    (calls_since (application_constructor true mock_driver (fresh garbage_object)).2
        (application_destructor true mock_driver
          (application_constructor true mock_driver (fresh garbage_object)).2)).filter
        is_release =
      [Call.vkDestroyDevice 500, Call.pfn_vkDestroyDebugUtilsMessengerEXT 200 300,
        Call.vkDestroySurfaceKHR 200 400, Call.vkDestroyInstance 200,
        Call.glfwDestroyWindow 100, Call.glfwTerminate] :=
  application_destructor_release_calls true mock_driver garbage_object
    (application_constructor true mock_driver (fresh garbage_object)).2 rfl (fun _ _ => rfl)

/-- C6 (as stated, refuted): with validation enabled the constructor on the
mock driver acquires the debug messenger before the surface, and the
destructor also releases the debug messenger before the surface, so the
release sequence is not the reverse of the acquisition sequence. -/
theorem teardown_not_reverse_of_creation :
    (application_constructor true mock_driver (fresh garbage_object)).1 = .ok () ∧
      acquisitions (application_constructor true mock_driver (fresh garbage_object)).2.calls =
        [Resource.windowing_subsystem, Resource.window, Resource.vulkan_instance,
          Resource.debug_messenger, Resource.surface, Resource.logical_device] ∧
      releases (calls_since (application_constructor true mock_driver (fresh garbage_object)).2
          (application_destructor true mock_driver
            (application_constructor true mock_driver (fresh garbage_object)).2)) =
        [Resource.logical_device, Resource.debug_messenger, Resource.surface,
          Resource.vulkan_instance, Resource.window, Resource.windowing_subsystem] ∧
      releases (calls_since (application_constructor true mock_driver (fresh garbage_object)).2
          (application_destructor true mock_driver
            (application_constructor true mock_driver (fresh garbage_object)).2)) ≠
        (acquisitions
          (application_constructor true mock_driver (fresh garbage_object)).2.calls).reverse := by
  refine ⟨rfl, ?_, ?_, ?_⟩ <;> decide

/-- C6 (amended): after a successful constructor, the destructor releases
logical device, debug messenger (validation enabled only), surface, instance,
window, windowing subsystem, while the constructor acquired windowing
subsystem, window, instance, debug messenger (validation enabled only),
surface, logical device.  With validation disabled the release sequence is the
exact reverse of the acquisition sequence; with validation enabled it is that
reverse with the debug messenger and the surface exchanged (the messenger is
released before the surface although it was acquired before it). -/
theorem teardown_versus_creation (validation_layers_enabled : Bool) (d : Driver)
    (garbage : application) (w : World)
    (hinit : application_constructor validation_layers_enabled d (fresh garbage) = (.ok (), w))
    (hext : ∀ inst, d.vkGetInstanceProcAddr inst "vkCreateDebugUtilsMessengerEXT" = true →
      d.vkGetInstanceProcAddr inst "vkDestroyDebugUtilsMessengerEXT" = true) :
    acquisitions w.calls =
        [Resource.windowing_subsystem, Resource.window, Resource.vulkan_instance] ++
          (if validation_layers_enabled then [Resource.debug_messenger] else []) ++
          [Resource.surface, Resource.logical_device] ∧
      releases (calls_since w (application_destructor validation_layers_enabled d w)) =
        [Resource.logical_device] ++
          (if validation_layers_enabled then [Resource.debug_messenger] else []) ++
          [Resource.surface, Resource.vulkan_instance, Resource.window,
            Resource.windowing_subsystem] ∧
      (validation_layers_enabled = false →
        releases (calls_since w (application_destructor validation_layers_enabled d w)) =
          (acquisitions w.calls).reverse) ∧
      (validation_layers_enabled = true →
        (acquisitions w.calls).reverse =
            [Resource.logical_device, Resource.surface, Resource.debug_messenger,
              Resource.vulkan_instance, Resource.window, Resource.windowing_subsystem] ∧
          releases (calls_since w (application_destructor validation_layers_enabled d w)) =
            [Resource.logical_device, Resource.debug_messenger, Resource.surface,
              Resource.vulkan_instance, Resource.window, Resource.windowing_subsystem]) := by
  obtain ⟨hacq, hproc⟩ := application_constructor_ok validation_layers_enabled d _ w hinit
  have hacq2 : acquisitions w.calls =
      [Resource.windowing_subsystem, Resource.window, Resource.vulkan_instance] ++
        (if validation_layers_enabled then [Resource.debug_messenger] else []) ++
        [Resource.surface, Resource.logical_device] := by
    rw [hacq]
    rfl
  have hrel : releases (calls_since w (application_destructor validation_layers_enabled d w)) =
      [Resource.logical_device] ++
        (if validation_layers_enabled then [Resource.debug_messenger] else []) ++
        [Resource.surface, Resource.vulkan_instance, Resource.window,
          Resource.windowing_subsystem] := by
    rw [application_destructor_calls]
    cases validation_layers_enabled with
    | false => simp [releases, Call.releases]
    | true =>
      have hp := hext _ (hproc rfl)
      simp [hp, releases, Call.releases]
  refine ⟨hacq2, hrel, ?_, ?_⟩
  · intro hv
    rw [hrel, hacq2, hv]
    rfl
  · intro hv
    rw [hrel, hacq2, hv]
    exact ⟨rfl, rfl⟩

/-- Witness for C6 (amended): the application built on the mock driver with
validation disabled. -/
theorem teardown_versus_creation_witness :
    releases (calls_since (application_constructor false mock_driver (fresh garbage_object)).2
        (application_destructor false mock_driver
          (application_constructor false mock_driver (fresh garbage_object)).2)) =
      (acquisitions
        (application_constructor false mock_driver (fresh garbage_object)).2.calls).reverse :=
  (teardown_versus_creation false mock_driver garbage_object
    (application_constructor false mock_driver (fresh garbage_object)).2 rfl
    (fun _ _ => rfl)).2.2.1 rfl

end VulkanTest
